import Mathlib

/-! # Authentication and account security subsystem: a shallow embedding

Definitions translated from the JavaScript sources of the task-management
API, namely src/utils/passwordValidator.js, src/utils/jwt.js,
src/models/User.js, src/services/authService.js and src/middleware/auth.js,
followed by the theorems that settle the specification claims about them.

Modelling conventions: JavaScript millisecond timestamps are Nat values and
JWT timestamps are Nat seconds (the JavaScript library floors the
millisecond clock, which is Nat division here); passwords travel as
List Char; bcrypt hashing is modelled symbolically, the stored hash being
identified by the plaintext that produced it; an HMAC signature is modelled
by recording which secret signed the token, so that signature verification
is equality of secrets.
-/

namespace AuthSpec

/-! ## Password validator, from src/utils/passwordValidator.js -/

/-- Character test for the uppercase-letter regex class, code points 65 to 90. -/
def isUpperCh (c : Char) : Bool := decide (65 ≤ c.toNat) && decide (c.toNat ≤ 90)

/-- Character test for the lowercase-letter regex class, code points 97 to 122. -/
def isLowerCh (c : Char) : Bool := decide (97 ≤ c.toNat) && decide (c.toNat ≤ 122)

/-- Character test for the digit regex class, code points 48 to 57. -/
def isDigitCh (c : Char) : Bool := decide (48 ≤ c.toNat) && decide (c.toNat ≤ 57)

/-- JavaScript toLowerCase on the character range the validator compares against,
mapping the 26 ASCII uppercase letters down by 32 and fixing everything else. -/
def jsLower (c : Char) : Char := if isUpperCh c then Char.ofNat (c.toNat + 32) else c

/-- The fixed punctuation set of the special-character regex in the validator:
exclamation through question mark, including both braces, both quotes and the
backslash, exactly the 30 characters of the character class in the source. -/
def specialChars : List Char :=
  ['!', '@', '#', '$', '%', '^', '&', '*', '(', ')', '_', '+', '-', '=', '[', ']',
   Char.ofNat 123, Char.ofNat 125, ';', Char.ofNat 39, ':', Char.ofNat 34,
   Char.ofNat 92, '|', ',', '.', '<', '>', '/', '?']

/-- Membership in the fixed punctuation set. -/
def isSpecialCh (c : Char) : Bool := specialChars.contains c

/-- The fixed deny-list of common passwords, verbatim from the source. -/
def commonPasswords : List String :=
  ["password", "password123", "12345678", "qwerty", "abc123",
   "monkey", "1234567890", "letmein", "trustno1", "dragon",
   "baseball", "iloveyou", "master", "sunshine", "ashley",
   "bailey", "passw0rd", "shadow", "123123", "654321"]

/-- Case-insensitive exact match of the deny-list: the source lowercases the
candidate and asks for list membership. -/
def isCommonPassword (p : List Char) : Bool :=
  commonPasswords.any (fun s => s.data == p.map jsLower)

/-- Sliding window of width four over a character list, the semantics of testing
a regex whose alternatives all have length four: some window satisfies f. -/
def scan4 (f : Char → Char → Char → Char → Bool) : List Char → Bool
  | a :: b :: c :: d :: rest => f a b c d || scan4 f (b :: c :: d :: rest)
  | _ => false

/-- Sliding window of width three over a character list. -/
def scan3 (f : Char → Char → Char → Bool) : List Char → Bool
  | a :: b :: c :: rest => f a b c || scan3 f (b :: c :: rest)
  | _ => false

/-- The thirty alternatives of the sequential-characters regex, verbatim. -/
def seqPatterns : List String :=
  ["abcd", "bcde", "cdef", "defg", "efgh", "fghi", "ghij", "hijk", "ijkl", "jklm",
   "klmn", "lmno", "mnop", "nopq", "opqr", "pqrs", "qrst", "rstu", "stuv", "tuvw",
   "uvwx", "vwxy", "wxyz", "0123", "1234", "2345", "3456", "4567", "5678", "6789"]

/-- A window matches the sequential-characters regex when it equals one of the
thirty four-character alternatives. -/
def seqHit (a b c d : Char) : Bool := seqPatterns.any (fun s => s.data == [a, b, c, d])

/-- The sequential-characters test: the regex carries the ignore-case flag, which
for this ASCII alternation is lowercasing the password before matching. -/
def hasSequentialChars (p : List Char) : Bool := scan4 seqHit (p.map jsLower)

/-- The four line terminators that the dot of a JavaScript regex without the
dotAll flag refuses to match: newline, carriage return and the two Unicode
line separators. -/
def isLineTerminator (c : Char) : Bool :=
  c == Char.ofNat 10 || c == Char.ofNat 13 || c == Char.ofNat 0x2028 || c == Char.ofNat 0x2029

/-- A window matches the repeated-characters regex, dot capture followed by two
backreferences: three equal characters whose value the dot can match at all. -/
def repeatHit (a b c : Char) : Bool := !(isLineTerminator a) && a == b && b == c

/-- The repeated-characters test of the validator. -/
def hasRepeatedChars (p : List Char) : Bool := scan3 repeatHit p

/-- The distinct violation messages the validator can push, one constructor per
push site, in source order. -/
inductive Violation where
  | tooShort
  | tooLong
  | noUppercase
  | noLowercase
  | noDigit
  | noSpecial
  | commonPassword
  | sequentialChars
  | repeatedChars
deriving DecidableEq, Repr

/-- The result object of the validator: the isValid flag and the errors list. -/
structure PwResult where
  isValid : Bool
  errors : List Violation
deriving DecidableEq, Repr

/-- validatePasswordStrength from src/utils/passwordValidator.js: every rule is
checked unconditionally and appends its violation, and isValid is emptiness of
the accumulated list. -/
def validatePasswordStrength (p : List Char) : PwResult :=
  let errors : List Violation :=
    (if p.length < 8 then [.tooShort] else []) ++
    (if 128 < p.length then [.tooLong] else []) ++
    (if !(p.any isUpperCh) then [.noUppercase] else []) ++
    (if !(p.any isLowerCh) then [.noLowercase] else []) ++
    (if !(p.any isDigitCh) then [.noDigit] else []) ++
    (if !(p.any isSpecialCh) then [.noSpecial] else []) ++
    (if isCommonPassword p then [.commonPassword] else []) ++
    (if hasSequentialChars p then [.sequentialChars] else []) ++
    (if hasRepeatedChars p then [.repeatedChars] else [])
  { isValid := errors.isEmpty, errors := errors }

/-- The sequential-run rule in the words of the specification: four characters
with consecutive ascending code points, all lowercase alphabetic or all
numeric, sought in the lowercased password. -/
def ascQuad (a b c d : Char) : Bool :=
  (b.toNat == a.toNat + 1) && (c.toNat == a.toNat + 2) && (d.toNat == a.toNat + 3) &&
  ((isLowerCh a && isLowerCh d) || (isDigitCh a && isDigitCh d))

/-- Spec wording of the sequential rule: some window of the lowercased password
is an ascending run. -/
def specSequentialRun (p : List Char) : Bool := scan4 ascQuad (p.map jsLower)

/-- Spec wording of the repeated rule: three identical consecutive characters,
with no exemption for any character value. -/
def specRepeatedRun (p : List Char) : Bool := scan3 (fun a b c => a == b && b == c) p

/-- The validity rules exactly as the claim words them. -/
def claimValidRules (p : List Char) : Bool :=
  decide (8 ≤ p.length) && decide (p.length ≤ 128) &&
  p.any isUpperCh && p.any isLowerCh && p.any isDigitCh && p.any isSpecialCh &&
  !(isCommonPassword p) && !(specSequentialRun p) && !(specRepeatedRun p)

/-- The validity rules amended at the single point the code forces: the
repeated-character rule exempts line terminators, which the regex dot of the
source cannot capture. -/
def amendedValidRules (p : List Char) : Bool :=
  decide (8 ≤ p.length) && decide (p.length ≤ 128) &&
  p.any isUpperCh && p.any isLowerCh && p.any isDigitCh && p.any isSpecialCh &&
  !(isCommonPassword p) && !(specSequentialRun p) && !(hasRepeatedChars p)

/-- The rule condition behind each violation entry, in spec wording where that
wording is faithful and with the line-terminator amendment on the repeated
rule. -/
def violationCond : Violation → List Char → Bool
  | .tooShort, p => decide (p.length < 8)
  | .tooLong, p => decide (128 < p.length)
  | .noUppercase, p => !(p.any isUpperCh)
  | .noLowercase, p => !(p.any isLowerCh)
  | .noDigit, p => !(p.any isDigitCh)
  | .noSpecial, p => !(p.any isSpecialCh)
  | .commonPassword, p => isCommonPassword p
  | .sequentialChars, p => specSequentialRun p
  | .repeatedChars, p => hasRepeatedChars p

/-! ## Password generator, from src/utils/passwordValidator.js -/

/-- The uppercase seeding alphabet of generateStrongPassword. -/
def uppercaseChars : List Char := "ABCDEFGHIJKLMNOPQRSTUVWXYZ".data

/-- The lowercase seeding alphabet of generateStrongPassword. -/
def lowercaseChars : List Char := "abcdefghijklmnopqrstuvwxyz".data

/-- The digit seeding alphabet of generateStrongPassword. -/
def numberChars : List Char := "0123456789".data

/-- The special seeding alphabet of generateStrongPassword, verbatim from its
string literal; unlike the validator set it has no backslash. -/
def generatorSpecialChars : List Char :=
  ['!', '@', '#', '$', '%', '^', '&', '*', '(', ')', '_', '+', '-', '=', '[', ']',
   Char.ofNat 123, Char.ofNat 125, ';', Char.ofNat 39, ':', Char.ofNat 34,
   '|', ',', '.', '<', '>', '?', '/']

/-- The concatenated fill alphabet of generateStrongPassword. -/
def allGeneratorChars : List Char :=
  uppercaseChars ++ lowercaseChars ++ numberChars ++ generatorSpecialChars

/-- One random draw of the generator: flooring a random multiple of the length
always lands inside the list, which the modulus expresses. -/
def pick (s : List Char) (i : Nat) : Char := s.getD (i % s.length) 'A'

/-- The password generateStrongPassword assembles before its final shuffle: one
seed from each class, then length minus four fill draws from the concatenated
alphabet; the randomness oracle r supplies the successive draws. The shuffle,
a sort under a random comparator, is an implementation-defined permutation and
is quantified as such in the theorems. -/
def buildPassword (n : Nat) (r : Nat → Nat) : List Char :=
  [pick uppercaseChars (r 0), pick lowercaseChars (r 1),
   pick numberChars (r 2), pick generatorSpecialChars (r 3)] ++
  (List.range (n - 4)).map (fun i => pick allGeneratorChars (r (4 + i)))

/-! ## Tokens, from src/utils/jwt.js -/

/-- The two signing contexts and their expiry durations, in seconds. -/
structure JwtConfig where
  secret : String
  expiresIn : Nat
  refreshSecret : String
  refreshExpiresIn : Nat
deriving DecidableEq, Repr

/-- Default issuer claim from buildClaims. -/
def jwtIssuer : String := "task-management-api"

/-- Default audience claim from buildClaims. -/
def jwtAudience : String := "task-management-client"

/-- A signed token: the claims buildClaims embeds plus the issue and expiry
times the library adds, with the signature modelled by the signing secret. -/
structure Jwt where
  sub : Nat
  iat : Nat
  exp : Nat
  iss : String
  aud : String
  sig : String
deriving DecidableEq, Repr

/-- The two verification failures the library distinguishes by error name:
JsonWebTokenError for a malformed token or bad signature, TokenExpiredError
for a structurally valid token past its expiry. -/
inductive JwtError where
  | invalid
  | expired
deriving DecidableEq, Repr

/-- Signing: issue time is the floored second clock and expiry adds the
configured duration. -/
def signToken (secret : String) (expiresIn : Nat) (userId nowMs : Nat) : Jwt :=
  { sub := userId, iat := nowMs / 1000, exp := nowMs / 1000 + expiresIn,
    iss := jwtIssuer, aud := jwtAudience, sig := secret }

/-- signAccessToken from src/utils/jwt.js. -/
def signAccessToken (cfg : JwtConfig) (userId nowMs : Nat) : Jwt :=
  signToken cfg.secret cfg.expiresIn userId nowMs

/-- signRefreshToken from src/utils/jwt.js. -/
def signRefreshToken (cfg : JwtConfig) (userId nowMs : Nat) : Jwt :=
  signToken cfg.refreshSecret cfg.refreshExpiresIn userId nowMs

/-- Verification: the signature is checked first, then expiry, which fails as
soon as the floored second clock reaches the expiry claim. -/
def verifyToken (secret : String) (t : Jwt) (nowMs : Nat) : Except JwtError Jwt :=
  if t.sig ≠ secret then .error .invalid
  else if t.exp ≤ nowMs / 1000 then .error .expired
  else .ok t

/-- verifyAccessToken from src/utils/jwt.js. -/
def verifyAccessToken (cfg : JwtConfig) (t : Jwt) (nowMs : Nat) : Except JwtError Jwt :=
  verifyToken cfg.secret t nowMs

/-- verifyRefreshToken from src/utils/jwt.js. -/
def verifyRefreshToken (cfg : JwtConfig) (t : Jwt) (nowMs : Nat) : Except JwtError Jwt :=
  verifyToken cfg.refreshSecret t nowMs

/-! ## User records, from src/models/User.js -/

/-- The fields of the user schema the security claims touch. The password field
holds the symbolic bcrypt hash, identified by its preimage; timestamps are
milliseconds. -/
structure UserRec where
  id : Nat
  username : String
  email : String
  password : String
  refreshToken : Option Jwt
  isActive : Bool
  passwordChangedAt : Option Nat
  lastLogin : Option Nat
  loginAttempts : Nat
  lockUntil : Option Nat
deriving DecidableEq, Repr

/-- comparePassword: bcrypt compare of candidate against the stored hash, which
in the symbolic model is equality with the preimage of the hash. -/
def comparePassword (u : UserRec) (candidate : String) : Bool := candidate == u.password

/-- changedPasswordAfter: with a change timestamp present, its floored second
value is compared strictly against the token issue time. -/
def changedPasswordAfter (u : UserRec) (jwtTimestamp : Nat) : Bool :=
  match u.passwordChangedAt with
  | some ms => decide (jwtTimestamp < ms / 1000)
  | none => false

/-- The isLocked virtual: a lock timestamp is present and strictly in the
future. -/
def isLocked (u : UserRec) (nowMs : Nat) : Bool :=
  match u.lockUntil with
  | some lu => decide (nowMs < lu)
  | none => false

/-- Lockout threshold from incLoginAttempts. -/
def maxLoginAttempts : Nat := 5

/-- Lockout duration from incLoginAttempts: two hours of milliseconds. -/
def lockTimeMs : Nat := 2 * 60 * 60 * 1000

/-- The unconditional-increment arm of incLoginAttempts: increment, and set the
lock when the new count reaches the threshold on an account not already
locked. -/
def incAttemptsStep (u : UserRec) (nowMs : Nat) : UserRec :=
  if decide (maxLoginAttempts ≤ u.loginAttempts + 1) && !(isLocked u nowMs) then
    { u with loginAttempts := u.loginAttempts + 1, lockUntil := some (nowMs + lockTimeMs) }
  else
    { u with loginAttempts := u.loginAttempts + 1 }

/-- incLoginAttempts from src/models/User.js: a previously set lock that has
expired restarts the count at one and clears the lock, otherwise the increment
arm runs. -/
def incLoginAttempts (u : UserRec) (nowMs : Nat) : UserRec :=
  match u.lockUntil with
  | some lu =>
    if decide (lu < nowMs) then { u with loginAttempts := 1, lockUntil := none }
    else incAttemptsStep u nowMs
  | none => incAttemptsStep u nowMs

/-- resetLoginAttempts from src/models/User.js. -/
def resetLoginAttempts (u : UserRec) : UserRec :=
  { u with loginAttempts := 0, lockUntil := none }

/-! ## Service layer, from src/services/authService.js and
src/middleware/auth.js -/

/-- Modelled from the spec: the ApiError value class of src/utils/apiError.js,
whose source file is absent from the tree; per the error-handling design every
failure is a typed result carrying a status code and a message, and the call
sites use the static constructors for 401, 403 and 404. -/
structure ApiErr where
  statusCode : Nat
  message : String
deriving DecidableEq, Repr

/-- Constructor for 401 responses. -/
def ApiErr.unauthorized (m : String) : ApiErr := { statusCode := 401, message := m }

/-- Constructor for 403 responses. -/
def ApiErr.forbidden (m : String) : ApiErr := { statusCode := 403, message := m }

/-- Constructor for 404 responses. -/
def ApiErr.notFound (m : String) : ApiErr := { statusCode := 404, message := m }

/-- The record store is a list of user records; lookup by either identifier
lowercases the input and matches it against the stored email or username. -/
def findByIdentifier (db : List UserRec) (identifier : String) : Option UserRec :=
  db.find? (fun u =>
    u.email == String.mk (identifier.data.map jsLower) ||
    u.username == String.mk (identifier.data.map jsLower))

/-- Lookup by record id. -/
def findById (db : List UserRec) (id : Nat) : Option UserRec :=
  db.find? (fun u => u.id == id)

/-- Persisting a mutation of one record back into the store. -/
def updateUser (db : List UserRec) (id : Nat) (f : UserRec → UserRec) : List UserRec :=
  db.map (fun u => if u.id == id then f u else u)

/-- login from src/services/authService.js: resolve by identifier, check the
lock inline before any password comparison, increment the counter only on a
mismatch against a found record, and on success reset the counter when it was
dirty, stamp lastLogin, issue both tokens and rotate the stored refresh
token. The pair returns the call result and the store after persistence. -/
def login (cfg : JwtConfig) (db : List UserRec) (identifier password : String) (nowMs : Nat) :
    Except ApiErr (UserRec × Jwt × Jwt) × List UserRec :=
  match findByIdentifier db identifier with
  | none => (.error (ApiErr.unauthorized "Invalid credentials"), db)
  | some user =>
    if isLocked user nowMs then
      (.error (ApiErr.forbidden "Account is temporarily locked due to too many failed login attempts. Please try again later."), db)
    else if !(comparePassword user password) then
      (.error (ApiErr.unauthorized "Invalid credentials"),
       updateUser db user.id (fun u => incLoginAttempts u nowMs))
    else
      let tok := signAccessToken cfg user.id nowMs
      let rt := signRefreshToken cfg user.id nowMs
      let user1 :=
        if decide (0 < user.loginAttempts) || user.lockUntil.isSome then
          resetLoginAttempts user
        else user
      let user2 := { user1 with lastLogin := some nowMs, refreshToken := some rt }
      (.ok (user2, tok, rt), updateUser db user.id (fun _ => user2))

/-- refreshToken from src/services/authService.js: verify under the refresh
secret, load by the id claim, require exact equality with the stored refresh
token, and issue a new access token only; every failure, and likewise the
catch-all around the verifier, raises the same unauthorized error. The pair
returns the call result and the untouched store. -/
def refresh (cfg : JwtConfig) (db : List UserRec) (t : Jwt) (nowMs : Nat) :
    Except ApiErr Jwt × List UserRec :=
  match verifyRefreshToken cfg t nowMs with
  | .error _ => (.error (ApiErr.unauthorized "Invalid refresh token"), db)
  | .ok decoded =>
    match findById db decoded.sub with
    | none => (.error (ApiErr.unauthorized "Invalid refresh token"), db)
    | some user =>
      if user.refreshToken ≠ some t then
        (.error (ApiErr.unauthorized "Invalid refresh token"), db)
      else
        (.ok (signAccessToken cfg user.id nowMs), db)

/-- The document the protect middleware actually receives from its query: the
load re-selects only passwordChangedAt among the select-false fields of the
user schema, so password, refreshToken, loginAttempts and lockUntil are absent
from the loaded document; absence is modelled by the schema defaults, an empty
hash, no token, a zero counter and no lock timestamp. In particular the
isLocked virtual of the loaded document can never be true. -/
def protectLoad (u : UserRec) : UserRec :=
  { u with password := "", refreshToken := none, loginAttempts := 0, lockUntil := none }

/-- The protect middleware from src/middleware/auth.js: verify the access
token, mapping the two verifier failures to their distinct messages, load the
record with only passwordChangedAt re-selected, then reject a missing record,
an inactive account, a token issued before the last password change, and a
locked account, in that order; the locked-account check reads the lockUntil
field of the loaded document, which the query never selects, so that final
check can never fire at runtime. -/
def protect (cfg : JwtConfig) (db : List UserRec) (t : Jwt) (nowMs : Nat) :
    Except ApiErr UserRec :=
  match verifyAccessToken cfg t nowMs with
  | .error .invalid => .error (ApiErr.unauthorized "Invalid token. Please login again.")
  | .error .expired => .error (ApiErr.unauthorized "Token expired. Please login again.")
  | .ok decoded =>
    match findById db decoded.sub with
    | none => .error (ApiErr.unauthorized "User no longer exists")
    | some user =>
      if !(protectLoad user).isActive then
        .error (ApiErr.forbidden "Your account has been deactivated. Please contact support.")
      else if changedPasswordAfter (protectLoad user) decoded.iat then
        .error (ApiErr.unauthorized "Password was recently changed. Please login again.")
      else if isLocked (protectLoad user) nowMs then
        .error (ApiErr.forbidden "Your account is temporarily locked. Please try again later.")
      else .ok (protectLoad user)

/-! ## Concrete fixtures used by witnesses and counterexamples -/

/-- Folding a sequence of failure times through incLoginAttempts. -/
def applyFailures (u : UserRec) (ts : List Nat) : UserRec :=
  ts.foldl incLoginAttempts u

/-- A configuration with distinct access and refresh secrets. -/
def cfg0 : JwtConfig :=
  { secret := "access-secret", expiresIn := 86400,
    refreshSecret := "refresh-secret", refreshExpiresIn := 604800 }

/-- A fresh, active, unlocked account. -/
def baseUser : UserRec :=
  { id := 1, username := "alice", email := "alice@x.com", password := "Tr0ub4dor&3",
    refreshToken := none, isActive := true, passwordChangedAt := none,
    lastLogin := none, loginAttempts := 0, lockUntil := none }

/-- The base account with a password change recorded at millisecond 100000. -/
def chgUser : UserRec := { baseUser with passwordChangedAt := some 100000 }

/-- An access token whose issue second equals the floored change second of chgUser. -/
def chgToken : Jwt :=
  { sub := 1, iat := 100, exp := 1000, iss := jwtIssuer, aud := jwtAudience,
    sig := "access-secret" }

/-- A deactivated account with a known password. -/
def inactiveUser : UserRec :=
  { baseUser with id := 2, username := "bob", email := "bob@x.com", isActive := false }

/-- The refresh token stored for the session account. -/
def sessionRt : Jwt := signRefreshToken cfg0 3 1000

/-- An account holding sessionRt as its current refresh token. -/
def sessionUser : UserRec :=
  { baseUser with id := 3, username := "carol", email := "carol@x.com", refreshToken := some sessionRt }

/-- A validly signed, unexpired refresh token for the same subject that differs
from the stored one, issued one second later. -/
def forgedRt : Jwt := signRefreshToken cfg0 3 2000

/-- A refresh-signed token whose expiry second is already past. -/
def expiredRt : Jwt :=
  { sub := 3, iat := 0, exp := 1, iss := jwtIssuer, aud := jwtAudience,
    sig := "refresh-secret" }

/-- A token signed under neither configured secret. -/
def badSigRt : Jwt :=
  { sub := 3, iat := 0, exp := 700000, iss := jwtIssuer, aud := jwtAudience,
    sig := "forged-secret" }

/-- The refresh token stored for the locked, deactivated account. -/
def lockedRt : Jwt := signRefreshToken cfg0 4 1000

/-- An account that is both deactivated and locked far into the future, holding
lockedRt as its current refresh token. -/
def lockedInactiveUser : UserRec :=
  { baseUser with id := 4, username := "dave", email := "dave@x.com", refreshToken := some lockedRt, isActive := false, lockUntil := some 1000000000 }

/-- An eight-character password containing three consecutive newlines, which the
validator accepts because the regex dot cannot capture a line terminator. -/
def pwNewline : List Char := "Aq1!\n\n\nz".data

/-- A randomness oracle for the generator: seeds A, a, 1 and the exclamation
mark, then fills every remaining position with the lowercase letter a. -/
def genR0 : Nat → Nat :=
  fun i => if i == 0 then 0 else if i == 1 then 0 else if i == 2 then 1 else if i == 3 then 0 else 26

/-! ## Helper lemmas -/

/-- One failure on an unlocked record below the threshold only increments. -/
theorem incLoginAttempts_below (u : UserRec) (t : Nat) (hL : u.lockUntil = none)
    (hA : u.loginAttempts + 1 < 5) :
    incLoginAttempts u t = { u with loginAttempts := u.loginAttempts + 1 } := by
  simp only [incLoginAttempts, hL, incAttemptsStep, maxLoginAttempts, isLocked]
  rw [if_neg]
  simp only [Bool.and_eq_true, decide_eq_true_eq, not_and]
  omega

/-- The failure that reaches the threshold on an unlocked record sets the lock
two hours past the clock. -/
theorem incLoginAttempts_fifth (u : UserRec) (t : Nat) (hL : u.lockUntil = none)
    (hA : u.loginAttempts = 4) :
    incLoginAttempts u t =
      { u with loginAttempts := 5, lockUntil := some (t + lockTimeMs) } := by
  simp [incLoginAttempts, hL, incAttemptsStep, maxLoginAttempts, isLocked, hA]

/-- A record found by id carries that id. -/
theorem findById_id_eq {db : List UserRec} {id : Nat} {u : UserRec}
    (h : findById db id = some u) : u.id = id := by
  have := List.find?_some h
  simpa using this

/-- Four consecutive code points starting inside the lowercase or digit range
always land in the pattern list; settled by enumeration of the start point. -/
theorem seqHit_ofNat : ∀ n, n < 120 →
    ((97 ≤ n ∧ n + 3 ≤ 122) ∨ (48 ≤ n ∧ n + 3 ≤ 57)) →
    seqHit (Char.ofNat n) (Char.ofNat (n + 1)) (Char.ofNat (n + 2)) (Char.ofNat (n + 3)) = true := by
  decide

/-- The window test of the source regex coincides with the ascending-run window
test in the words of the specification. -/
theorem seqHit_eq_ascQuad (a b c d : Char) : seqHit a b c d = ascQuad a b c d := by
  rw [Bool.eq_iff_iff]
  constructor
  · intro h
    simp only [seqHit, List.any_eq_true] at h
    obtain ⟨s, hs, heq⟩ := h
    rw [beq_iff_eq] at heq
    fin_cases hs <;>
      · obtain ⟨rfl, rfl, rfl, rfl⟩ := by simpa using heq
        decide
  · intro h
    simp only [ascQuad, Bool.and_eq_true, Bool.or_eq_true, beq_iff_eq,
      decide_eq_true_eq, isLowerCh, isDigitCh] at h
    obtain ⟨⟨⟨hb, hc⟩, hd⟩, hcls⟩ := h
    have ha' : a = Char.ofNat a.toNat := (Char.ofNat_toNat a).symm
    have hb' : b = Char.ofNat (a.toNat + 1) := by
      rw [← hb, Char.ofNat_toNat]
    have hc' : c = Char.ofNat (a.toNat + 2) := by
      rw [← hc, Char.ofNat_toNat]
    have hd' : d = Char.ofNat (a.toNat + 3) := by
      rw [← hd, Char.ofNat_toNat]
    rw [ha', hb', hc', hd']
    apply seqHit_ofNat
    · omega
    · omega

/-- Window scans agree when their window tests agree. -/
theorem scan4_ext {f g : Char → Char → Char → Char → Bool}
    (hfg : ∀ a b c d, f a b c d = g a b c d) : ∀ l, scan4 f l = scan4 g l
  | [] => rfl
  | [_] => rfl
  | [_, _] => rfl
  | [_, _, _] => rfl
  | a :: b :: c :: d :: rest => by
      simp only [scan4, hfg, scan4_ext hfg (b :: c :: d :: rest)]

/-- The sequential-characters check of the source equals the ascending-run rule
of the specification. -/
theorem hasSequentialChars_eq_spec (p : List Char) :
    hasSequentialChars p = specSequentialRun p :=
  scan4_ext seqHit_eq_ascQuad (p.map jsLower)

/-- Membership in a conditional singleton. -/
theorem mem_ite_singleton {v a : Violation} {c : Prop} [Decidable c] :
    (v ∈ if c then [a] else []) ↔ (c ∧ v = a) := by
  split <;> simp_all

/-- A generator draw stays inside its alphabet. -/
theorem pick_mem {s : List Char} (hs : s ≠ []) (i : Nat) : pick s i ∈ s := by
  unfold pick
  have hlt : i % s.length < s.length := Nat.mod_lt _ (List.length_pos.mpr hs)
  rw [List.getD_eq_getElem s 'A' hlt]
  exact List.getElem_mem hlt

/-- Every character of the uppercase alphabet passes the uppercase test. -/
theorem upper_all : ∀ c ∈ uppercaseChars, isUpperCh c = true := by decide

/-- Every character of the lowercase alphabet passes the lowercase test. -/
theorem lower_all : ∀ c ∈ lowercaseChars, isLowerCh c = true := by decide

/-- Every character of the digit alphabet passes the digit test. -/
theorem digit_all : ∀ c ∈ numberChars, isDigitCh c = true := by decide

/-- Every character of the generator special alphabet is in the validator set. -/
theorem genspecial_all : ∀ c ∈ generatorSpecialChars, isSpecialCh c = true := by decide

/-- No lowercased generator special character occurs in any deny-list entry. -/
theorem genspecial_not_common :
    ∀ c ∈ generatorSpecialChars, ∀ s ∈ commonPasswords, jsLower c ∉ s.data := by decide


/-! ## Claim C1: lockout after five consecutive failures -/

/-- Claim C1: starting from an unlocked record with zero failed attempts, five
consecutive RecordFailure calls leave the lock set to the time of the fifth
failure plus two hours (and four calls leave it unset); the record reads as
locked at that moment and one second before the lock expiry; a further failure
one second after the expiry resets the counter to one, clears the lock, and
does not immediately re-lock. -/
theorem lockout_after_five_failures (u0 : UserRec) (t1 t2 t3 t4 t5 : Nat)
    (hA : u0.loginAttempts = 0) (hL : u0.lockUntil = none) :
    (applyFailures u0 [t1, t2, t3, t4]).lockUntil = none ∧
    (applyFailures u0 [t1, t2, t3, t4, t5]).lockUntil = some (t5 + lockTimeMs) ∧
    (applyFailures u0 [t1, t2, t3, t4, t5]).loginAttempts = 5 ∧
    isLocked (applyFailures u0 [t1, t2, t3, t4, t5]) t5 = true ∧
    isLocked (applyFailures u0 [t1, t2, t3, t4, t5]) (t5 + lockTimeMs - 1000) = true ∧
    (incLoginAttempts (applyFailures u0 [t1, t2, t3, t4, t5]) (t5 + lockTimeMs + 1000)).loginAttempts = 1 ∧
    (incLoginAttempts (applyFailures u0 [t1, t2, t3, t4, t5]) (t5 + lockTimeMs + 1000)).lockUntil = none ∧
    isLocked (incLoginAttempts (applyFailures u0 [t1, t2, t3, t4, t5]) (t5 + lockTimeMs + 1000))
      (t5 + lockTimeMs + 1000) = false := by
  have h1 := incLoginAttempts_below u0 t1 hL (by omega)
  have h2 := incLoginAttempts_below { u0 with loginAttempts := u0.loginAttempts + 1 } t2 hL (by simp; omega)
  have h3 := incLoginAttempts_below { u0 with loginAttempts := u0.loginAttempts + 1 + 1 } t3 hL (by simp; omega)
  have h4 := incLoginAttempts_below { u0 with loginAttempts := u0.loginAttempts + 1 + 1 + 1 } t4 hL (by simp; omega)
  have h5 := incLoginAttempts_fifth { u0 with loginAttempts := u0.loginAttempts + 1 + 1 + 1 + 1 } t5 hL (by simp [hA])
  simp only [applyFailures, List.foldl, h1, h2, h3, h4, h5]
  refine ⟨hL, trivial, trivial, ?_, ?_, ?_, ?_, ?_⟩
  · simp only [isLocked, decide_eq_true_eq, lockTimeMs]
    omega
  · simp only [isLocked, decide_eq_true_eq, lockTimeMs]
    omega
  · simp only [incLoginAttempts]
    rw [if_pos (by simp only [decide_eq_true_eq, lockTimeMs]; omega)]
  · simp only [incLoginAttempts]
    rw [if_pos (by simp only [decide_eq_true_eq, lockTimeMs]; omega)]
  · simp only [incLoginAttempts]
    rw [if_pos (by simp only [decide_eq_true_eq, lockTimeMs]; omega)]
    simp [isLocked]

/-- Claim C1 witness: the lockout theorem applied to the base account with
failures at milliseconds one through five. -/
theorem lockout_after_five_failures_witness :
    (applyFailures baseUser [1, 2, 3, 4, 5]).lockUntil = some (5 + lockTimeMs) ∧
    isLocked (applyFailures baseUser [1, 2, 3, 4, 5]) 5 = true := by
  have h := lockout_after_five_failures baseUser 1 2 3 4 5 rfl rfl
  exact ⟨h.2.1, h.2.2.2.1⟩

/-! ## Claim C2: password changes versus accepted token issue times -/

/-- Claim C2 counterexample: the middleware accepts a token whose issue second
equals the floored second of passwordChangedAt, so the change time is not
strictly below the issue time of every accepted token. -/
theorem protect_accepts_iat_eq_changed_second :
    protect cfg0 [chgUser] chgToken 200000 = .ok (protectLoad chgUser) ∧
    chgUser.passwordChangedAt = some 100000 ∧
    (protectLoad chgUser).passwordChangedAt = some 100000 ∧
    ¬(100000 / 1000 < chgToken.iat) := by
  refine ⟨rfl, rfl, rfl, by decide⟩

/-- Claim C2 amended: whenever the protect middleware accepts a token for a
record carrying a password-change timestamp, the floored second of that
timestamp is at most the token issue time; equality is possible, so the bound
is not strict. -/
theorem passwordChangedAt_le_iat_of_protect_ok (cfg : JwtConfig) (db : List UserRec) (t : Jwt)
    (now : Nat) (u : UserRec) (ms : Nat)
    (hok : protect cfg db t now = .ok u)
    (hms : u.passwordChangedAt = some ms) :
    ms / 1000 ≤ t.iat := by
  unfold protect at hok
  split at hok
  · exact absurd hok (by simp)
  · exact absurd hok (by simp)
  · rename_i decoded hd
    have hdt : decoded = t := by
      simp only [verifyAccessToken, verifyToken] at hd
      split at hd
      · exact absurd hd (by simp)
      · split at hd
        · exact absurd hd (by simp)
        · simpa using hd.symm
    subst hdt
    split at hok
    · exact absurd hok (by simp)
    · rename_i user hu
      split at hok
      · exact absurd hok (by simp)
      · split at hok
        · exact absurd hok (by simp)
        · rename_i hchg
          split at hok
          · exact absurd hok (by simp)
          · simp only [Except.ok.injEq] at hok
            subst hok
            simp only [changedPasswordAfter, hms, decide_eq_true_eq] at hchg
            omega

/-- Claim C2 witness: the amended bound at the concrete boundary instance. -/
theorem passwordChangedAt_le_iat_witness : 100000 / 1000 ≤ chgToken.iat :=
  passwordChangedAt_le_iat_of_protect_ok cfg0 [chgUser] chgToken 200000
    (protectLoad chgUser) 100000 rfl rfl

/-! ## Claim C3: login against a deactivated account -/

/-- Claim C3: the login path never consults isActive, so a deactivated account
with the correct password logs in successfully and receives both tokens; the
repository documentation states that deactivation prevents login, which makes
this a divergence of the code from its own documentation. -/
theorem login_ignores_inactive_account :
    inactiveUser.isActive = false ∧
    (login cfg0 [inactiveUser] "bob" "Tr0ub4dor&3" 5000).1 =
      .ok ({ inactiveUser with
              lastLogin := some 5000,
              refreshToken := some (signRefreshToken cfg0 2 5000) },
           signAccessToken cfg0 2 5000, signRefreshToken cfg0 2 5000) := by
  refine ⟨rfl, rfl⟩

/-! ## Claim C4: refresh error kinds -/

/-- Claim C4 counterexample: a validly signed, unexpired token that mismatches
the stored refresh token, a token with a wrong signature, and an expired token
all produce exactly the same unauthorized error on the refresh path, so the
mismatch kind is not distinct from the invalid and expired kinds there. -/
theorem refresh_error_kinds_collapse :
    verifyRefreshToken cfg0 forgedRt 2000000 = .ok forgedRt ∧
    sessionUser.refreshToken ≠ some forgedRt ∧
    (refresh cfg0 [sessionUser] forgedRt 2000000).1 =
      .error (ApiErr.unauthorized "Invalid refresh token") ∧
    (refresh cfg0 [sessionUser] badSigRt 2000000).1 =
      .error (ApiErr.unauthorized "Invalid refresh token") ∧
    (refresh cfg0 [sessionUser] expiredRt 2000000).1 =
      .error (ApiErr.unauthorized "Invalid refresh token") := by
  refine ⟨rfl, by decide, rfl, rfl, rfl⟩

/-- Claim C4 amended: a validly signed, unexpired refresh token that does not
equal the stored current refresh token is rejected with the generic
unauthorized message, which is the very same error value every other refresh
failure produces; the refresh path does not distinguish mismatch, invalid and
expired kinds. -/
theorem refresh_mismatch_same_generic_error (cfg : JwtConfig) (db : List UserRec) (t : Jwt)
    (now : Nat) (u : UserRec)
    (hver : verifyRefreshToken cfg t now = .ok t)
    (hfind : findById db t.sub = some u)
    (hmismatch : u.refreshToken ≠ some t) :
    (refresh cfg db t now).1 = .error (ApiErr.unauthorized "Invalid refresh token") := by
  unfold refresh
  rw [hver]
  simp only [hfind]
  rw [if_pos hmismatch]

/-- Claim C4 witness: the amended statement at the concrete replay scenario. -/
theorem refresh_mismatch_witness :
    (refresh cfg0 [sessionUser] forgedRt 2000000).1 =
      .error (ApiErr.unauthorized "Invalid refresh token") :=
  refresh_mismatch_same_generic_error cfg0 [sessionUser] forgedRt 2000000 sessionUser
    rfl rfl (by decide)

/-! ## Claim C5: refresh success condition and frame -/

/-- Claim C5: the refresh operation never writes the store back, in success or
failure, so every field of every record including the stored refresh token is
unchanged; it succeeds exactly when the token verifies under the refresh
secret and equals the stored current refresh token of the record found by the
subject claim, and then it returns precisely one new access token for that
subject. -/
theorem refresh_frame_and_success (cfg : JwtConfig) (db : List UserRec) (t : Jwt) (now : Nat) :
    (refresh cfg db t now).2 = db ∧
    (∀ tok, (refresh cfg db t now).1 = .ok tok →
      tok = signAccessToken cfg t.sub now ∧ verifyRefreshToken cfg t now = .ok t ∧
      ∃ u, findById db t.sub = some u ∧ u.refreshToken = some t) ∧
    ((verifyRefreshToken cfg t now = .ok t ∧ ∃ u, findById db t.sub = some u ∧ u.refreshToken = some t) →
      (refresh cfg db t now).1 = .ok (signAccessToken cfg t.sub now)) := by
  have hver : ∀ d, verifyRefreshToken cfg t now = .ok d → d = t := by
    intro d hd
    simp only [verifyRefreshToken, verifyToken] at hd
    split at hd
    · exact absurd hd (by simp)
    · split at hd
      · exact absurd hd (by simp)
      · simpa using hd.symm
  refine ⟨?_, ?_, ?_⟩
  · unfold refresh
    split
    · rfl
    · split
      · rfl
      · split <;> rfl
  · intro tok htok
    unfold refresh at htok
    split at htok
    · exact absurd htok (by simp)
    · rename_i decoded hd
      have hdt : decoded = t := hver decoded hd
      subst hdt
      split at htok
      · exact absurd htok (by simp)
      · rename_i user hu
        split at htok
        · exact absurd htok (by simp)
        · rename_i hrt
          simp only [Except.ok.injEq] at htok
          have hid := findById_id_eq hu
          refine ⟨by rw [← htok, hid], hd, user, hu, by simpa using hrt⟩
  · rintro ⟨hver2, u, hu, hrt⟩
    unfold refresh
    rw [hver2]
    simp only [hu]
    rw [if_neg (by simp [hrt]), findById_id_eq hu]

/-- Claim C5 witness: the frame part at a concrete refresh call. -/
theorem refresh_frame_witness : (refresh cfg0 [sessionUser] sessionRt 2000000).2 = [sessionUser] :=
  (refresh_frame_and_success cfg0 [sessionUser] sessionRt 2000000).1

/-! ## Claim C6: enumeration-safe login errors and counter discipline -/

/-- Claim C6: an unknown identifier and a wrong password against a found account
return the identical generic unauthorized error; a locked account is rejected
with the distinct lockout error before any password comparison, whatever the
supplied password; and the store is written only in the mismatch-on-found
case, where exactly that account runs through incLoginAttempts. -/
theorem login_enumeration_safe (cfg : JwtConfig) (db : List UserRec) (idf pw : String) (now : Nat) :
    (findByIdentifier db idf = none →
      login cfg db idf pw now = (.error (ApiErr.unauthorized "Invalid credentials"), db)) ∧
    (∀ u, findByIdentifier db idf = some u → isLocked u now = true →
      login cfg db idf pw now =
        (.error (ApiErr.forbidden "Account is temporarily locked due to too many failed login attempts. Please try again later."), db)) ∧
    (∀ u, findByIdentifier db idf = some u → isLocked u now = false → comparePassword u pw = false →
      login cfg db idf pw now =
        (.error (ApiErr.unauthorized "Invalid credentials"),
         updateUser db u.id (fun x => incLoginAttempts x now))) := by
  refine ⟨?_, ?_, ?_⟩
  · intro h
    unfold login
    rw [h]
  · intro u hu hl
    unfold login
    rw [hu]
    simp only [hl, if_true]
  · intro u hu hl hpw
    unfold login
    rw [hu]
    simp only [hl, hpw, Bool.false_eq_true, if_false, Bool.not_false, if_true]

/-- Claim C6 witness: the unknown-identifier part against an empty store. -/
theorem login_unknown_identifier_witness :
    login cfg0 [] "nobody" "pw" 0 = (.error (ApiErr.unauthorized "Invalid credentials"), []) :=
  (login_enumeration_safe cfg0 [] "nobody" "pw" 0).1 rfl

/-! ## Claim C7: the password validity characterization -/

/-- Claim C7 counterexample: a password with three consecutive newline
characters passes the validator because the regex dot cannot capture a line
terminator, while the rules as the claim words them reject it for a repeated
run; validity is therefore not equivalent to the claimed rule list. -/
theorem validate_newline_counterexample :
    (validatePasswordStrength pwNewline).isValid = true ∧
    claimValidRules pwNewline = false ∧
    specRepeatedRun pwNewline = true := by
  refine ⟨by decide, by decide, by decide⟩

/-- Claim C7 amended: validity is emptiness of the violation list, and both are
equivalent to the claimed rules once the repeated-character rule exempts line
terminators; moreover every rule is checked independently, each violation
entry appearing in the list exactly when its rule condition fails. -/
theorem validate_characterization (p : List Char) :
    ((validatePasswordStrength p).isValid = true ↔ (validatePasswordStrength p).errors = []) ∧
    ((validatePasswordStrength p).isValid = true ↔ amendedValidRules p = true) ∧
    (∀ v, v ∈ (validatePasswordStrength p).errors ↔ violationCond v p = true) := by
  refine ⟨?_, ?_, ?_⟩
  · simp [validatePasswordStrength, List.isEmpty_eq_true]
  · simp only [validatePasswordStrength, amendedValidRules, List.isEmpty_eq_true,
      List.append_eq_nil, ite_eq_right_iff, hasSequentialChars_eq_spec,
      Bool.and_eq_true, decide_eq_true_eq, Bool.not_eq_true',
      List.cons_ne_nil, imp_false, Bool.not_eq_true, Bool.not_eq_false, Nat.not_lt]
  · intro v
    cases v <;>
      simp [validatePasswordStrength, violationCond, mem_ite_singleton,
        hasSequentialChars_eq_spec]

/-! ## Claim C8: token class separation and expiry -/

/-- Claim C8: a signed access token verifies under the access context before
its expiry and carries its subject; with distinct secrets, each verifier
rejects the token of the other class as invalid rather than expired; and once
the expiry duration has elapsed verification fails as expired. -/
theorem token_class_separation (cfg : JwtConfig) (id tIssue tFresh tLate : Nat)
    (hsec : cfg.secret ≠ cfg.refreshSecret)
    (hfresh : tFresh / 1000 < tIssue / 1000 + cfg.expiresIn)
    (hlate : tIssue / 1000 + cfg.expiresIn ≤ tLate / 1000) :
    (verifyAccessToken cfg (signAccessToken cfg id tIssue) tFresh = .ok (signAccessToken cfg id tIssue) ∧
      (signAccessToken cfg id tIssue).sub = id) ∧
    verifyAccessToken cfg (signRefreshToken cfg id tIssue) tFresh = .error .invalid ∧
    verifyRefreshToken cfg (signAccessToken cfg id tIssue) tFresh = .error .invalid ∧
    verifyAccessToken cfg (signAccessToken cfg id tIssue) tLate = .error .expired := by
  refine ⟨⟨?_, rfl⟩, ?_, ?_, ?_⟩
  · simp only [verifyAccessToken, verifyToken, signAccessToken, signToken]
    rw [if_neg (by simp), if_neg (by simp; omega)]
  · simp only [verifyAccessToken, verifyToken, signRefreshToken, signToken]
    rw [if_pos (by simpa using fun h => hsec h.symm)]
  · simp only [verifyRefreshToken, verifyToken, signAccessToken, signToken]
    rw [if_pos (by simpa using hsec)]
  · simp only [verifyAccessToken, verifyToken, signAccessToken, signToken]
    rw [if_neg (by simp), if_pos (by simpa using hlate)]

/-- Claim C8 witness: the separation theorem at the sample configuration. -/
theorem token_class_separation_witness :
    (verifyAccessToken cfg0 (signAccessToken cfg0 7 0) 1000 = .ok (signAccessToken cfg0 7 0) ∧
      (signAccessToken cfg0 7 0).sub = 7) ∧
    verifyAccessToken cfg0 (signRefreshToken cfg0 7 0) 1000 = .error .invalid ∧
    verifyRefreshToken cfg0 (signAccessToken cfg0 7 0) 1000 = .error .invalid ∧
    verifyAccessToken cfg0 (signAccessToken cfg0 7 0) 86400000 = .error .expired :=
  token_class_separation cfg0 7 0 1000 86400000 (by decide) (by decide) (by decide)

/-! ## Claim C9: what the generator does and does not guarantee -/

/-- Claim C9 counterexample: with in-range length eight and a randomness
outcome that fills every free position with the letter a, the assembled
password fails the validator through its repeated-run rule, so validity is not
guaranteed for every outcome of the internal randomness; the identity
permutation is one possible result of the final shuffle. -/
theorem generator_not_always_valid :
    (8 : Nat) ≤ 8 ∧ (8 : Nat) ≤ 128 ∧
    (buildPassword 8 genR0).length = 8 ∧
    (validatePasswordStrength (buildPassword 8 genR0)).isValid = false := by
  refine ⟨by decide, by decide, by decide, by decide⟩

/-- Claim C9 amended: for every requested length between 8 and 128, every
randomness outcome and every permutation the shuffle may produce, the
generated password has exactly the requested length, contains at least one
uppercase letter, one lowercase letter, one digit and one validator special
character, and never equals a deny-list entry; full validity is not
guaranteed because the random fill can produce sequential or repeated runs. -/
theorem generator_guarantees (n : Nat) (r : Nat → Nat) (out : List Char)
    (h8 : 8 ≤ n) (h128 : n ≤ 128) (hperm : List.Perm (buildPassword n r) out) :
    out.length = n ∧
    out.any isUpperCh = true ∧ out.any isLowerCh = true ∧
    out.any isDigitCh = true ∧ out.any isSpecialCh = true ∧
    isCommonPassword out = false := by
  have hmem : ∀ x ∈ buildPassword n r, x ∈ out := fun x hx => hperm.mem_iff.mp hx
  have hup : pick uppercaseChars (r 0) ∈ out := by
    apply hmem; simp [buildPassword]
  have hlo : pick lowercaseChars (r 1) ∈ out := by
    apply hmem; simp [buildPassword]
  have hdi : pick numberChars (r 2) ∈ out := by
    apply hmem; simp [buildPassword]
  have hsp : pick generatorSpecialChars (r 3) ∈ out := by
    apply hmem; simp [buildPassword]
  refine ⟨?_, ?_, ?_, ?_, ?_, ?_⟩
  · have hlen := hperm.length_eq
    simp only [buildPassword, List.length_append, List.length_map, List.length_range,
      List.length_cons, List.length_nil] at hlen
    omega
  · exact List.any_eq_true.mpr
      ⟨_, hup, upper_all _ (pick_mem (by decide) (r 0))⟩
  · exact List.any_eq_true.mpr
      ⟨_, hlo, lower_all _ (pick_mem (by decide) (r 1))⟩
  · exact List.any_eq_true.mpr
      ⟨_, hdi, digit_all _ (pick_mem (by decide) (r 2))⟩
  · exact List.any_eq_true.mpr
      ⟨_, hsp, genspecial_all _ (pick_mem (by decide) (r 3))⟩
  · rw [Bool.eq_false_iff]
    intro hcom
    simp only [isCommonPassword, List.any_eq_true, beq_iff_eq] at hcom
    obtain ⟨s, hsmem, hdata⟩ := hcom
    have : jsLower (pick generatorSpecialChars (r 3)) ∈ s.data := by
      rw [hdata]
      exact List.mem_map_of_mem jsLower hsp
    exact genspecial_not_common _ (pick_mem (by decide) (r 3)) s hsmem this

/-- Claim C9 witness: the guarantees at length sixteen under the all-zero
randomness oracle and the identity permutation. -/
theorem generator_guarantees_witness :
    (buildPassword 16 (fun _ => 0)).length = 16 ∧
    (buildPassword 16 (fun _ => 0)).any isUpperCh = true ∧
    (buildPassword 16 (fun _ => 0)).any isLowerCh = true ∧
    (buildPassword 16 (fun _ => 0)).any isDigitCh = true ∧
    (buildPassword 16 (fun _ => 0)).any isSpecialCh = true ∧
    isCommonPassword (buildPassword 16 (fun _ => 0)) = false :=
  generator_guarantees 16 (fun _ => 0) (buildPassword 16 (fun _ => 0))
    (by decide) (by decide) (List.Perm.refl _)

/-! ## Claim C10: refresh skips the lockout and active checks -/

/-- Claim C10: the refresh path reads neither the lock nor the active flag, so
an account that is locked or deactivated still obtains a fresh access token
whenever the presented refresh token is validly signed, unexpired and equal to
the stored current one. -/
theorem refresh_ignores_lock_and_active (cfg : JwtConfig) (db : List UserRec) (t : Jwt)
    (now : Nat) (u : UserRec)
    (_hstate : isLocked u now = true ∨ u.isActive = false)
    (hver : verifyRefreshToken cfg t now = .ok t)
    (hfind : findById db t.sub = some u)
    (hmatch : u.refreshToken = some t) :
    (refresh cfg db t now).1 = .ok (signAccessToken cfg u.id now) := by
  unfold refresh
  rw [hver]
  simp only [hfind]
  rw [if_neg (by simp [hmatch])]

/-- Claim C10 witness: refresh succeeds for the locked and deactivated sample
account with its matching stored token. -/
theorem refresh_ignores_lock_witness :
    (refresh cfg0 [lockedInactiveUser] lockedRt 2000000).1 =
      .ok (signAccessToken cfg0 lockedInactiveUser.id 2000000) :=
  refresh_ignores_lock_and_active cfg0 [lockedInactiveUser] lockedRt 2000000 lockedInactiveUser
    (Or.inl (by decide)) rfl rfl (by decide)

end AuthSpec
